import Mathlib

/-!
Shallow embedding of the debt lifecycle and reminder/escalation engine of
the GeminiDebtAgent repository (Debt/Debtor models, DebtCollectionService,
GeminiService response classification), together with proofs of the
specification's claims about it.

Conventions of the embedding:
* instants are `Int` milliseconds since the epoch (JS `Date.getTime()`);
* money amounts are `Int` minor units (the source stores DECIMAL(15,2) /
  JS numbers and only adds and compares them);
* the external clock `moment()` is passed explicitly as a `now : Int`
  parameter;
* environment configuration (reminder interval hours, max reminder
  attempts, escalation threshold days) is passed as explicit parameters;
* database query methods become filters over a `List Debt`;
* fallible operations return `Except String`.
-/

namespace GeminiDebtAgent

/-- Milliseconds in one hour (`moment(..).add(h, 'hours')`). -/
def msPerHour : Int := 3600000

/-- Milliseconds in one day (`moment(..).diff(.., 'days')`, `subtract(d, 'days')`). -/
def msPerDay : Int := 86400000

/-- JS `moment(a).diff(moment(b), 'days')`: millisecond difference divided by a
day, truncated toward zero (`Int.div`). -/
def jsDayDiff (a b : Int) : Int := Int.tdiv (a - b) msPerDay

/-- The `status` ENUM of the `debts` table: `pending`, `overdue`, `paid`,
`partially_paid`, `cancelled`, `escalated`, `written_off`. -/
inductive DebtStatus where
  | pending
  | overdue
  | paid
  | partlyPaid
  | cancelled
  | escalated
  | writtenOff
deriving DecidableEq, Repr

/-- The `escalationType` ENUM: `legal`, `collection_agency`, `management`,
`write_off`. -/
inductive EscalationType where
  | legal
  | collectionAgency
  | management
  | writeOff
deriving DecidableEq, Repr

/-- One entry of the `payments` JSON list on a debt: amount, payment date,
and the verifier stamped by `addPayment` (`verifiedBy`, `verifiedAt`). -/
structure PaymentRec where
  amount : Int
  paymentDate : Int
  verifiedBy : Option Nat := none
  verifiedAt : Option Int := none
deriving DecidableEq, Repr

/-- The caller-supplied payment data handed to `addPayment` before the
verifier fields are stamped on. -/
structure PaymentData where
  amount : Int
  paymentDate : Int
deriving DecidableEq, Repr

/-- The fields of the `Debt` model that the lifecycle / reminder /
escalation logic reads and writes.  `debtorPhone` stands for the populated
`debt.debtor.phone` used by the response handler's query. -/
structure Debt where
  id : Nat
  debtorId : Nat
  debtorPhone : String
  amount : Int
  dueDate : Int
  status : DebtStatus
  payments : List PaymentRec
  reminderCount : Nat
  lastReminderDate : Option Int
  lastReminderLevel : Nat
  nextReminderDate : Option Int
  escalationDate : Option Int
  escalationType : Option EscalationType
  isActive : Bool
deriving DecidableEq, Repr

/-- `payment_history` JSON on the `Debtor` model: counters plus the running
average payment delay in days. -/
structure PaymentHistory where
  totalDebts : Nat
  paidOnTime : Nat
  paidLate : Nat
  defaulted : Nat
  averagePaymentDays : ℚ
deriving DecidableEq, Repr

/-- The fields of the `Debtor` model touched by payment recording. -/
structure Debtor where
  id : Nat
  phone : String
  paymentHistory : PaymentHistory
  lastPaymentDate : Option Int
deriving DecidableEq, Repr

/-- Classification of a payment by `addPayment`: `on_time` when the payment
date is on or before the due date, else `late` (`defaulted` is set by other
flows). -/
inductive PayTiming where
  | onTime
  | late
  | defaulted
deriving DecidableEq, Repr

/-- `Debt.totalPaid` getter: `payments.reduce((sum, p) => sum + p.amount, 0)`. -/
def totalPaid (d : Debt) : Int :=
  d.payments.foldl (fun s p => s + p.amount) 0

/-- `Debt.remainingBalance` getter: `Math.max(0, amount - totalPaid)`. -/
def remainingBalance (d : Debt) : Int :=
  max 0 (d.amount - totalPaid d)

/-- `Debt.daysOverdue` getter: 0 for paid/cancelled, else
`Math.max(0, today.diff(dueDate, 'days'))`.  `Int.toNat` of the millisecond
difference followed by `Nat` division realises the truncate-then-clamp of the
source (a negative truncated diff clamps to 0 either way). -/
def daysOverdue (d : Debt) (now : Int) : Nat :=
  if d.status = .paid ∨ d.status = .cancelled then 0
  else (now - d.dueDate).toNat / msPerDay.toNat

/-- `Debt.updateStatus()`: paid when `totalPaid >= amount`, else
partially_paid when `totalPaid > 0`, else overdue when the due date has
passed (`moment().isAfter(dueDate)`) and the status was pending, else
unchanged. -/
def updateStatus (d : Debt) (now : Int) : Debt :=
  if d.amount ≤ totalPaid d then { d with status := .paid }
  else if 0 < totalPaid d then { d with status := .partlyPaid }
  else if d.dueDate < now ∧ d.status = .pending then { d with status := .overdue }
  else d

/-- `Debt.calculateNextReminderDate()`: null for terminal status
(paid/cancelled/written_off) or when `reminderCount >= maxAttempts`; else
`(lastReminderDate || dueDate) + intervalHours` hours. -/
def calculateNextReminderDate (d : Debt) (intervalHours maxAttempts : Nat) : Debt :=
  if d.status = .paid ∨ d.status = .cancelled ∨ d.status = .writtenOff then
    { d with nextReminderDate := none }
  else if maxAttempts ≤ d.reminderCount then
    { d with nextReminderDate := none }
  else
    { d with nextReminderDate := some (d.lastReminderDate.getD d.dueDate +
        (intervalHours : Int) * msPerHour) }

/-- Status set of the reminder queries: `['pending', 'overdue', 'partially_paid']`. -/
def openStatus (s : DebtStatus) : Bool :=
  match s with
  | .pending => true
  | .overdue => true
  | .partlyPaid => true
  | _ => false

/-- Status set of the first escalation disjunct: `['overdue', 'partially_paid']`. -/
def overdueStatus (s : DebtStatus) : Bool :=
  match s with
  | .overdue => true
  | .partlyPaid => true
  | _ => false

/-- Row predicate of `Debt.findDueForReminder`'s WHERE clause.  A SQL
comparison against a NULL `nextReminderDate` is not satisfied, hence
`Option.elim false`. -/
def dueForReminderB (now : Int) (d : Debt) : Bool :=
  (d.nextReminderDate.elim false (fun r => decide (r ≤ now))
      || (d.nextReminderDate.isNone && decide (d.dueDate < now) && d.reminderCount == 0))
    && openStatus d.status
    && d.isActive

/-- `Debt.findDueForReminder()` as a filter over the debt table. -/
def findDueForReminder (now : Int) (debts : List Debt) : List Debt :=
  debts.filter (dueForReminderB now)

/-- Row predicate of `Debt.findDueForEscalation`'s WHERE clause:
`(dueDate <= now - threshold days AND status in [overdue, partially_paid])
 OR (reminderCount >= maxReminders AND status in [pending, overdue,
 partially_paid])`, AND `status != escalated`, AND `isActive`. -/
def dueForEscalationB (now : Int) (threshold maxReminders : Nat) (d : Debt) : Bool :=
  ((decide (d.dueDate ≤ now - (threshold : Int) * msPerDay) && overdueStatus d.status)
      || (decide (maxReminders ≤ d.reminderCount) && openStatus d.status))
    && decide (d.status ≠ .escalated)
    && d.isActive

/-- `Debt.findDueForEscalation()` as a filter over the debt table. -/
def findDueForEscalation (now : Int) (threshold maxReminders : Nat)
    (debts : List Debt) : List Debt :=
  debts.filter (dueForEscalationB now threshold maxReminders)

/-- `Debtor.updatePaymentHistory(paymentStatus, paymentDays)`: bump
`total_debts` and the matching counter, then refresh the cumulative mean
`average_payment_days` over the paid (on-time + late) count, and stamp
`last_payment_date`. -/
def updatePaymentHistory (debtor : Debtor) (timing : PayTiming) (paymentDays : Nat)
    (now : Int) : Debtor :=
  let h := debtor.paymentHistory
  let h := { h with totalDebts := h.totalDebts + 1 }
  let h :=
    match timing with
    | .onTime => { h with paidOnTime := h.paidOnTime + 1 }
    | .late => { h with paidLate := h.paidLate + 1 }
    | .defaulted => { h with defaulted := h.defaulted + 1 }
  let paidCount := h.paidOnTime + h.paidLate
  let h :=
    if 0 < paidCount then
      { h with averagePaymentDays :=
          (h.averagePaymentDays * ((paidCount : ℚ) - 1) + (paymentDays : ℚ))
            / (paidCount : ℚ) }
    else h
  { debtor with paymentHistory := h, lastPaymentDate := some now }

/-- Result of `Debt.addPayment`: the saved debt, the debtor table after the
payment-history update, and the payment record the method returns. -/
structure AddPaymentResult where
  debt : Debt
  debtors : List Debtor
  payment : PaymentRec
deriving Repr

/-- `Debt.addPayment(paymentData, verifiedBy)`: stamp the verifier fields,
append to `payments`, recompute the status, classify the payment against the
due date (`on_time` iff `paymentDate.diff(dueDate, 'days') <= 0`) and update
the owning debtor's payment history.  No validation of the amount is
performed. -/
def addPayment (d : Debt) (debtors : List Debtor) (pd : PaymentData)
    (verifiedBy : Option Nat) (now : Int) : AddPaymentResult :=
  let payment : PaymentRec :=
    { amount := pd.amount
      paymentDate := pd.paymentDate
      verifiedBy := verifiedBy
      verifiedAt := verifiedBy.map (fun _ => now) }
  let d := { d with payments := d.payments ++ [payment] }
  let d := updateStatus d now
  let paymentDays := jsDayDiff payment.paymentDate d.dueDate
  let timing : PayTiming := if paymentDays ≤ 0 then .onTime else .late
  let debtors := debtors.map (fun dr =>
    if dr.id = d.debtorId then updatePaymentHistory dr timing paymentDays.toNat now
    else dr)
  { debt := d, debtors := debtors, payment := payment }

/-- `Debt.findByPk` / `Debt.findById` over the embedded table. -/
def findDebt (debts : List Debt) (debtId : Nat) : Option Debt :=
  debts.find? (fun d => d.id == debtId)

/-- `POST /:id/payments`: 404 `Debt not found` when the id is unknown, else
`debt.addPayment(req.body, req.user?.id)`.  The route performs no
validation of the payment amount. -/
def postPayment (debts : List Debt) (debtors : List Debtor) (debtId : Nat)
    (pd : PaymentData) (verifier : Option Nat) (now : Int) :
    Except String AddPaymentResult :=
  match findDebt debts debtId with
  | none => .error "Debt not found"
  | some d => .ok (addPayment d debtors pd verifier now)

/-- Outcome of `DebtCollectionService.sendDebtReminder`: the `{ success,
reason }` object it returns, the debt table after the
`findByIdAndUpdate` call, and how many WhatsApp messages went out. -/
structure SendOutcome where
  success : Bool
  reason : Option String
  debts : List Debt
  messagesSent : Nat
deriving DecidableEq, Repr

/-- `DebtCollectionService.sendDebtReminder(debtId, reminderLevel)`.
Throws (`.error`) when the debt is unknown; returns `success := false`
without mutating anything when the status is paid or cancelled; otherwise
generates and sends the reminder (`channelOk` models the message-generation
and channel send succeeding; on their failure the catch block logs and
rethrows with no debt mutation) and then applies the update document
`{ $inc: { reminderCount: 1 }, lastReminderDate: now, lastReminderLevel:
level }` — and only those fields — to the stored debt. -/
def sendDebtReminder (debts : List Debt) (debtId : Nat) (level : Nat)
    (now : Int) (channelOk : Bool) : Except String SendOutcome :=
  match findDebt debts debtId with
  | none => .error "Debt not found"
  | some d =>
    if d.status = .paid ∨ d.status = .cancelled then
      .ok { success := false, reason := some "Debt already resolved",
            debts := debts, messagesSent := 0 }
    else if channelOk then
      let d' : Debt :=
        { d with reminderCount := d.reminderCount + 1
                 lastReminderDate := some now
                 lastReminderLevel := level }
      .ok { success := true, reason := none,
            debts := debts.map (fun x => if x.id = debtId then d' else x),
            messagesSent := 1 }
    else
      .error "Failed to send debt reminder"

/-- The debt-resolution query of
`DebtCollectionService.handleDebtorResponse`:
`Debt.find({ 'debtor.phone': phoneNumber, status: { $in: ['pending',
'overdue'] } })`. -/
def matchedDebts (phoneNumber : String) (debts : List Debt) : List Debt :=
  debts.filter (fun d =>
    d.debtorPhone == phoneNumber
      && (decide (d.status = .pending) || decide (d.status = .overdue)))

/-- Intent categories of the classification JSON produced by
`GeminiService.analyzeDebtorResponse`, plus the `unknown` fallback. -/
inductive Intent where
  | paymentPromise
  | dispute
  | financialHardship
  | paymentPlanRequest
  | question
  | acknowledgment
  | ignore
  | unknown
deriving DecidableEq, Repr

/-- `sentiment` field of the classification. -/
inductive Sentiment where
  | positive
  | negative
  | neutral
deriving DecidableEq, Repr

/-- `urgency` field of the classification. -/
inductive Urgency where
  | high
  | medium
  | low
deriving DecidableEq, Repr

/-- `payment_commitment` field of the classification. -/
inductive Commitment where
  | yes
  | no
  | maybe
deriving DecidableEq, Repr

/-- `suggested_action` field of the classification. -/
inductive SuggestedAction where
  | followUp
  | escalate
  | negotiate
  | closeCase
  | wait
deriving DecidableEq, Repr

/-- The classification object.  `confidencePct` carries the source's float
confidence scaled to hundredths (0.95 ↦ 95, 0.1 ↦ 10) to stay in exact
arithmetic. -/
structure Analysis where
  intent : Intent
  sentiment : Sentiment
  urgency : Urgency
  paymentCommitment : Commitment
  suggestedAction : SuggestedAction
  confidencePct : Nat
  summary : String
deriving DecidableEq, Repr

/-- The conservative default classification returned by the catch block of
`GeminiService.analyzeDebtorResponse`: intent `unknown`, neutral sentiment,
medium urgency, commitment `maybe`, action `follow_up`, confidence 0.1. -/
def defaultAnalysis : Analysis :=
  { intent := .unknown
    sentiment := .neutral
    urgency := .medium
    paymentCommitment := .maybe
    suggestedAction := .followUp
    confidencePct := 10
    summary := "Analysis failed, manual review required" }

/-- `GeminiService.analyzeDebtorResponse(message)`: the text-intelligence
call plus JSON extraction either yields a parsed `Analysis` or fails
(model error, or no JSON object found in the reply — both throw into the
same catch).  On failure the default classification is returned; the
function never propagates the failure. -/
def analyzeDebtorResponse (modelOutcome : Except String Analysis) : Analysis :=
  match modelOutcome with
  | .ok a => a
  | .error _ => defaultAnalysis

/-- Response-generation strategy selected by the `switch (analysis.intent)`
of `DebtCollectionService.processDebtorResponse`. -/
inductive ReplyStrategy where
  | promiseTemplate
  | acknowledgmentTemplate
  | aiNegotiation
deriving DecidableEq, Repr

/-- The intent dispatch of `processDebtorResponse`: canned templates for
`payment_promise` and `acknowledgment`, the AI negotiation reply for
`dispute`, `financial_hardship`, `payment_plan_request`, `question`, and
for the default branch (hence for `unknown`). -/
def replyStrategy (i : Intent) : ReplyStrategy :=
  match i with
  | .paymentPromise => .promiseTemplate
  | .acknowledgment => .acknowledgmentTemplate
  | _ => .aiNegotiation

/-- Outcome of `DebtCollectionService.escalateDebt`: the updated debt, the
number of escalation messages sent, and the `{ success }` flag. -/
structure EscalationOutcome where
  debt : Debt
  messagesSent : Nat
  success : Bool
deriving DecidableEq, Repr

/-- `DebtCollectionService.escalateDebt(debtId, escalationType)` on a found
debt: unconditionally generates and sends an escalation message, then sets
`status := 'escalated'`, `escalationType` and `escalationDate := now`.
There is no guard on the current status. -/
def escalateDebt (d : Debt) (etype : EscalationType) (now : Int) :
    EscalationOutcome :=
  { debt := { d with status := .escalated
                     escalationType := some etype
                     escalationDate := some now }
    messagesSent := 1
    success := true }

/-- Per-debt body of `DebtCollectionService.scheduleEscalation`: escalate
(with the default type `legal`) only when `reminderCount >= 5` and the
status is not already `escalated`; otherwise leave the debt alone and send
nothing.  Returns the debt afterwards and the number of messages sent. -/
def scheduleEscalationStep (d : Debt) (now : Int) : Debt × Nat :=
  if 5 ≤ d.reminderCount ∧ d.status ≠ .escalated then
    ((escalateDebt d .legal now).debt, 1)
  else (d, 0)

/-! Concrete instances used to instantiate the theorems below. -/

/-- A neutral debt record used as a base for the concrete instances. -/
def baseDebt : Debt :=
  { id := 1
    debtorId := 2
    debtorPhone := "628111"
    amount := 1000000
    dueDate := 0
    status := .pending
    payments := []
    reminderCount := 0
    lastReminderDate := none
    lastReminderLevel := 0
    nextReminderDate := none
    escalationDate := none
    escalationType := none
    isActive := true }

/-- A debtor owning the sample debts. -/
def drSample : Debtor :=
  { id := 2
    phone := "628111"
    paymentHistory :=
      { totalDebts := 0, paidOnTime := 0, paidLate := 0, defaulted := 0
        averagePaymentDays := 0 }
    lastPaymentDate := none }

/-- Overdue debt whose `nextReminderDate` has passed (for the reminder query). -/
def dRem : Debt := { baseDebt with status := .overdue, nextReminderDate := some 50 }

/-- Overdue debt with `reminderCount = 5` and zero days overdue at `now = 0`
(for the escalation query). -/
def dEsc5 : Debt := { baseDebt with status := .overdue, reminderCount := 5 }

/-- Pending debt with no payments (payment recording target). -/
def dPay : Debt := baseDebt

/-- A non-positive payment: the claimed `ValidationError` input. -/
def pdNeg : PaymentData := { amount := -100, paymentDate := 0 }

/-- The spec §8 scenario debt: overdue, due 10 days before `scenNow`,
never reminded, `nextReminderDate` null. -/
def dScen : Debt := { baseDebt with status := .overdue }

/-- `now` for the scenario: 10 days after `dScen.dueDate`. -/
def scenNow : Int := 864000000

/-- A debt already marked paid (reminder refusal case). -/
def dPaid : Debt := { baseDebt with id := 2, status := .paid }

/-- A partially paid, active debt of the sample phone number. -/
def dPP : Debt :=
  { baseDebt with status := .partlyPaid, payments := [{ amount := 400000, paymentDate := 0 }] }

/-- A pending debt of the sample phone number. -/
def dPend : Debt := baseDebt

/-- A debt already escalated (stamped at time 1000). -/
def dEscalated : Debt :=
  { baseDebt with status := .escalated, escalationType := some .legal
                  escalationDate := some 1000 }

/-- Over-paid debt: amount 100, one payment of 150. -/
def dOver : Debt :=
  { baseDebt with amount := 100, payments := [{ amount := 150, paymentDate := 0 }] }

/-- Debts differing from `baseDebt` only in fields irrelevant to status
recomputation. -/
def dTwin : Debt := { baseDebt with reminderCount := 4, lastReminderLevel := 3 }

/-! Helper lemmas shared by several developments. -/

lemma totalPaid_set_status (d : Debt) (s : DebtStatus) :
    totalPaid { d with status := s } = totalPaid d := rfl

lemma updateStatus_payments (d : Debt) (now : Int) :
    (updateStatus d now).payments = d.payments := by
  unfold updateStatus
  split_ifs <;> rfl

lemma totalPaid_eq_sum (d : Debt) :
    totalPaid d = (d.payments.map PaymentRec.amount).sum := by
  unfold totalPaid
  generalize d.payments = l
  suffices h : ∀ (a : Int), l.foldl (fun s p => s + p.amount) a
      = a + (l.map PaymentRec.amount).sum by
    simpa using h 0
  induction l with
  | nil => intro a; simp
  | cons p t ih => intro a; simp [ih, add_assoc]

/-- C2: status recomputation depends only on (amount, payments, dueDate,
prior status) — and, fixing the clock, it is deterministic and idempotent:
`updateStatus (updateStatus d now) now = updateStatus d now`, and two debts
agreeing on those four inputs recompute to the same status. -/
theorem updateStatus_pure_and_idem (now : Int) :
    (∀ d : Debt, updateStatus (updateStatus d now) now = updateStatus d now)
    ∧ (∀ d d' : Debt, d.amount = d'.amount → d.payments = d'.payments →
        d.dueDate = d'.dueDate → d.status = d'.status →
        (updateStatus d now).status = (updateStatus d' now).status) := by
  constructor
  · intro d
    unfold updateStatus
    split_ifs with h1 h2 h3 <;>
      simp_all [totalPaid_set_status] <;>
      omega
  · intro d d' ha hp hdue hst
    have htp : totalPaid d = totalPaid d' := by unfold totalPaid; rw [hp]
    unfold updateStatus
    rw [ha, htp, hdue, hst]
    split_ifs <;> simp [hst]

/-- C2 witness: idempotence and input-determinism at concrete debts
(`dTwin` differs from `baseDebt` only in reminder metadata). -/
theorem updateStatus_pure_and_idem_witness :
    updateStatus (updateStatus dRem 100) 100 = updateStatus dRem 100
    ∧ (updateStatus baseDebt 100).status = (updateStatus dTwin 100).status :=
  ⟨(updateStatus_pure_and_idem 100).1 dRem,
   (updateStatus_pure_and_idem 100).2 baseDebt dTwin rfl rfl rfl rfl⟩

/-- C10: the derived remaining balance is never negative, equals
`max 0 (amount - sum of payment amounts)`, and on over-payment
(total paid ≥ amount) it is exactly 0 while status recomputation still
yields `paid`. -/
theorem remainingBalance_clamped (d : Debt) (now : Int) :
    0 ≤ remainingBalance d
    ∧ remainingBalance d = max 0 (d.amount - (d.payments.map PaymentRec.amount).sum)
    ∧ (d.amount ≤ totalPaid d →
        remainingBalance d = 0 ∧ (updateStatus d now).status = .paid) := by
  refine ⟨le_max_left _ _, by rw [remainingBalance, totalPaid_eq_sum], ?_⟩
  intro h
  constructor
  · unfold remainingBalance
    omega
  · unfold updateStatus
    rw [if_pos h]

/-- C10 witness: `dOver` has amount 100 and a single payment of 150. -/
theorem remainingBalance_clamped_witness :
    dOver.amount ≤ totalPaid dOver
    ∧ (remainingBalance dOver = 0 ∧ (updateStatus dOver 0).status = .paid) :=
  ⟨by decide, (remainingBalance_clamped dOver 0).2.2 (by decide)⟩

/-- C4: `calculateNextReminderDate` yields null exactly when the status is
terminal (paid/cancelled/written_off) or `reminderCount ≥ maxAttempts`;
otherwise it yields `(lastReminderDate or dueDate) + intervalHours` hours. -/
theorem calculateNextReminderDate_spec (d : Debt) (ih ma : Nat) :
    ((calculateNextReminderDate d ih ma).nextReminderDate = none ↔
      ((d.status = .paid ∨ d.status = .cancelled ∨ d.status = .writtenOff)
        ∨ ma ≤ d.reminderCount))
    ∧ (¬ ((d.status = .paid ∨ d.status = .cancelled ∨ d.status = .writtenOff)
          ∨ ma ≤ d.reminderCount) →
        (calculateNextReminderDate d ih ma).nextReminderDate =
          some (d.lastReminderDate.getD d.dueDate + (ih : Int) * msPerHour)) := by
  unfold calculateNextReminderDate
  split_ifs with h1 h2 <;> simp_all

/-- C4 witness: a pending, never-reminded debt gets
`dueDate + 24 h` as its next reminder date under the default config. -/
theorem calculateNextReminderDate_spec_witness :
    (calculateNextReminderDate baseDebt 24 5).nextReminderDate =
      some (baseDebt.lastReminderDate.getD baseDebt.dueDate + (24 : Int) * msPerHour) :=
  (calculateNextReminderDate_spec baseDebt 24 5).2 (by decide)

lemma openStatus_iff (s : DebtStatus) :
    openStatus s = true ↔ (s = .pending ∨ s = .overdue ∨ s = .partlyPaid) := by
  cases s <;> simp [openStatus]

lemma overdueStatus_iff (s : DebtStatus) :
    overdueStatus s = true ↔ (s = .overdue ∨ s = .partlyPaid) := by
  cases s <;> simp [overdueStatus]

/-- C1: every debt returned by `findDueForReminder` has status in
{pending, overdue, partially_paid}, is active, and satisfies either
(a) a non-null `nextReminderDate ≤ now` or (b) null `nextReminderDate` with
`dueDate < now` and `reminderCount = 0`; no returned debt is paid,
cancelled, written off, or inactive. -/
theorem findDueForReminder_sound (now : Int) (debts : List Debt) (d : Debt)
    (hd : d ∈ findDueForReminder now debts) :
    (d.status = .pending ∨ d.status = .overdue ∨ d.status = .partlyPaid)
    ∧ d.isActive = true
    ∧ ((∃ r, d.nextReminderDate = some r ∧ r ≤ now)
        ∨ (d.nextReminderDate = none ∧ d.dueDate < now ∧ d.reminderCount = 0))
    ∧ d.status ≠ .paid ∧ d.status ≠ .cancelled ∧ d.status ≠ .writtenOff := by
  have h := (List.mem_filter.mp hd).2
  unfold dueForReminderB at h
  simp only [Bool.and_eq_true, Bool.or_eq_true, decide_eq_true_eq,
    Option.isNone_iff_eq_none, beq_iff_eq] at h
  obtain ⟨⟨hdue, hstat⟩, hact⟩ := h
  have hs := (openStatus_iff d.status).mp hstat
  refine ⟨hs, hact, ?_, ?_, ?_, ?_⟩
  · rcases hdue with hdue | hdue
    · left
      cases hr : d.nextReminderDate with
      | none => rw [hr] at hdue; simp at hdue
      | some r =>
        rw [hr] at hdue
        simp only [Option.elim, decide_eq_true_eq] at hdue
        exact ⟨r, rfl, hdue⟩
    · right; exact ⟨hdue.1.1, hdue.1.2, hdue.2⟩
  all_goals rcases hs with h | h | h <;> simp [h]

/-- C1 witness: `dRem` (overdue, active, reminder due at 50) is returned at
`now = 100` and satisfies the soundness conclusion. -/
theorem findDueForReminder_sound_witness :
    (dRem.status = .pending ∨ dRem.status = .overdue ∨ dRem.status = .partlyPaid)
    ∧ dRem.isActive = true
    ∧ ((∃ r, dRem.nextReminderDate = some r ∧ r ≤ (100 : Int))
        ∨ (dRem.nextReminderDate = none ∧ dRem.dueDate < 100 ∧ dRem.reminderCount = 0))
    ∧ dRem.status ≠ .paid ∧ dRem.status ≠ .cancelled ∧ dRem.status ≠ .writtenOff :=
  findDueForReminder_sound 100 [dRem] dRem (by decide)

lemma dayThreshold_iff (due now : Int) (t : Nat) (ht : 1 ≤ t) :
    due ≤ now - (t : Int) * msPerDay ↔ t ≤ (now - due).toNat / msPerDay.toNat := by
  have h : msPerDay.toNat = 86400000 := rfl
  rw [h]
  unfold msPerDay
  omega

/-- C5: `findDueForEscalation` returns exactly the active debts not already
escalated, with status in {pending, overdue, partially_paid}, that either
are at least the threshold days overdue with status in {overdue,
partially_paid}, or have `reminderCount ≥ maxReminders` — so a debt with
`reminderCount` at the cap is included regardless of days overdue. -/
theorem findDueForEscalation_spec (now : Int) (t maxR : Nat) (debts : List Debt)
    (d : Debt) (ht : 1 ≤ t) :
    d ∈ findDueForEscalation now t maxR debts ↔
      d ∈ debts ∧ d.status ≠ .escalated ∧ d.isActive = true
      ∧ (d.status = .pending ∨ d.status = .overdue ∨ d.status = .partlyPaid)
      ∧ ((t ≤ daysOverdue d now ∧ (d.status = .overdue ∨ d.status = .partlyPaid))
          ∨ maxR ≤ d.reminderCount) := by
  rw [findDueForEscalation, List.mem_filter]
  unfold dueForEscalationB
  simp only [Bool.and_eq_true, Bool.or_eq_true, decide_eq_true_eq,
    openStatus_iff, overdueStatus_iff]
  constructor
  · rintro ⟨hmem, ⟨hdisj, hne⟩, hact⟩
    refine ⟨hmem, hne, hact, ?_, ?_⟩
    · rcases hdisj with ⟨_, h⟩ | ⟨_, h⟩
      · exact Or.imp_left (fun h => h) (Or.inr h)
      · exact h
    · rcases hdisj with ⟨hdue, hov⟩ | ⟨hrc, _⟩
      · left
        refine ⟨?_, hov⟩
        have hnp : ¬ (d.status = .paid ∨ d.status = .cancelled) := by
          rcases hov with h | h <;> simp [h]
        rw [daysOverdue, if_neg hnp]
        exact (dayThreshold_iff d.dueDate now t ht).mp hdue
      · right; exact hrc
  · rintro ⟨hmem, hne, hact, hopen, hdisj⟩
    refine ⟨hmem, ⟨?_, hne⟩, hact⟩
    rcases hdisj with ⟨hdays, hov⟩ | hrc
    · left
      refine ⟨?_, hov⟩
      have hnp : ¬ (d.status = .paid ∨ d.status = .cancelled) := by
        rcases hov with h | h <;> simp [h]
      rw [daysOverdue, if_neg hnp] at hdays
      exact (dayThreshold_iff d.dueDate now t ht).mpr hdays
    · right; exact ⟨hrc, hopen⟩

/-- C5 witness: `dEsc5` (overdue, `reminderCount = 5`, zero days overdue at
`now = 0`) is selected for escalation with threshold 7 and cap 5, via the
reminder-cap disjunct alone. -/
theorem findDueForEscalation_spec_witness :
    dEsc5 ∈ findDueForEscalation 0 7 5 [dEsc5] ∧ daysOverdue dEsc5 0 < 7 :=
  ⟨(findDueForEscalation_spec 0 7 5 [dEsc5] dEsc5 (by decide)).mpr
      (by refine ⟨by decide, by decide, by decide, by decide, Or.inr (by decide)⟩),
   by decide⟩

/-- C3 counterexample: the payment route accepts a payment of amount −100 —
`postPayment` succeeds and appends it to the payment list, so recording a
non-positive amount does not fail with a `ValidationError` as claimed (no
amount validation exists in `addPayment` or the route). -/
theorem recordPayment_accepts_nonpositive_cex :
    pdNeg.amount ≤ 0
    ∧ (postPayment [dPay] [drSample] 1 pdNeg none 0).isOk = true
    ∧ ((postPayment [dPay] [drSample] 1 pdNeg none 0).toOption.map
        (fun r => r.debt.payments.length)) = some 1
    ∧ dPay.payments.length = 0 :=
  ⟨by decide, rfl, rfl, rfl⟩

/-- C3 (amended): `recordPayment` fails with the not-found error exactly
when the debt id is unknown; for any found debt it performs no validation:
the payment (of any amount, including ≤ 0) is appended and the debt and the
owning debtor's payment history are updated. -/
theorem recordPayment_spec (debts : List Debt) (debtors : List Debtor) (i : Nat)
    (pd : PaymentData) (v : Option Nat) (now : Int) :
    (findDebt debts i = none →
      postPayment debts debtors i pd v now = .error "Debt not found")
    ∧ (∀ d, findDebt debts i = some d →
        postPayment debts debtors i pd v now = .ok (addPayment d debtors pd v now)
        ∧ (addPayment d debtors pd v now).debt.payments.length
            = d.payments.length + 1) := by
  constructor
  · intro h
    unfold postPayment
    rw [h]
  · intro d h
    constructor
    · unfold postPayment
      rw [h]
    · show (updateStatus { d with payments := d.payments ++ [_] } now).payments.length = _
      rw [updateStatus_payments]
      simp

/-- C3 witness: the single-debt table with id 1 hits the found branch and
the appended-payment equation. -/
theorem recordPayment_spec_witness :
    postPayment [dPay] [drSample] 1 pdNeg none 0
        = .ok (addPayment dPay [drSample] pdNeg none 0)
    ∧ (addPayment dPay [drSample] pdNeg none 0).debt.payments.length
        = dPay.payments.length + 1 :=
  (recordPayment_spec [dPay] [drSample] 1 pdNeg none 0).2 dPay (by decide)

/-- C6 (code behaviour at the failing input): for the paid debt the service
refuses with `success = false` and mutates nothing; for the spec §8
scenario debt (overdue 10 days, never reminded) a successful send
increments `reminderCount` to 1 and stamps `lastReminderDate`, but leaves
`nextReminderDate` null — the raw update document bypasses the model's
`beforeSave` recompute, while the spec requires `now + 24 h`. -/
theorem sendDebtReminder_eval :
    sendDebtReminder [dPaid] 2 1 scenNow true
        = .ok { success := false, reason := some "Debt already resolved",
                debts := [dPaid], messagesSent := 0 }
    ∧ ((sendDebtReminder [dScen] 1 1 scenNow true).toOption.map
        (fun o => (o.success, o.debts.map
          (fun x => (x.reminderCount, x.lastReminderDate, x.nextReminderDate)))))
        = some (true, [(1, some scenNow, none)])
    ∧ (none : Option Int) ≠ some (scenNow + 24 * msPerHour) :=
  ⟨rfl, rfl, by decide⟩

/-- C7 counterexample: an active debt in status `partially_paid` on the
sample phone number is not matched by the response handler's debt query. -/
theorem handleDebtorResponse_excludes_partlyPaid_cex :
    dPP.status = .partlyPaid ∧ dPP.isActive = true
    ∧ matchedDebts "628111" [dPP] = [] :=
  ⟨rfl, rfl, rfl⟩

/-- C7 (amended): the response handler resolves exactly the debts of the
phone number whose status is `pending` or `overdue` (debts in
`partially_paid` are not part of the matched conversational context), and
processes the matched set together. -/
theorem matchedDebts_spec (phone : String) (debts : List Debt) (d : Debt) :
    d ∈ matchedDebts phone debts ↔
      d ∈ debts ∧ d.debtorPhone = phone
      ∧ (d.status = .pending ∨ d.status = .overdue) := by
  rw [matchedDebts, List.mem_filter]
  simp [and_assoc]

/-- C7 witness: the pending debt on the sample phone is matched. -/
theorem matchedDebts_spec_witness :
    dPend ∈ matchedDebts "628111" [dPend] ↔
      dPend ∈ [dPend] ∧ dPend.debtorPhone = "628111"
      ∧ (dPend.status = .pending ∨ dPend.status = .overdue) :=
  matchedDebts_spec "628111" [dPend] dPend

/-- C8: when the classification collaborator fails (error or unparseable
output), `analyzeDebtorResponse` returns the conservative default —
intent `unknown`, suggested action `follow_up`, confidence 0.1 — instead of
propagating the failure, and the intent dispatch of response processing
continues into its default (AI negotiation) branch. -/
theorem analyzeDebtorResponse_fallback (e : String) :
    analyzeDebtorResponse (.error e) = defaultAnalysis
    ∧ (analyzeDebtorResponse (.error e)).intent = .unknown
    ∧ (analyzeDebtorResponse (.error e)).suggestedAction = .followUp
    ∧ (analyzeDebtorResponse (.error e)).confidencePct = 10
    ∧ replyStrategy (analyzeDebtorResponse (.error e)).intent = .aiNegotiation :=
  ⟨rfl, rfl, rfl, rfl, rfl⟩

/-- C8 witness: the fallback at a concrete failure message. -/
theorem analyzeDebtorResponse_fallback_witness :
    analyzeDebtorResponse (.error "model timeout") = defaultAnalysis
    ∧ (analyzeDebtorResponse (.error "model timeout")).intent = .unknown
    ∧ (analyzeDebtorResponse (.error "model timeout")).suggestedAction = .followUp
    ∧ (analyzeDebtorResponse (.error "model timeout")).confidencePct = 10
    ∧ replyStrategy (analyzeDebtorResponse (.error "model timeout")).intent
        = .aiNegotiation :=
  analyzeDebtorResponse_fallback "model timeout"

/-- C9 counterexample: calling `escalateDebt` twice on the same debt sends
an escalation message on the second call as well and re-stamps
`escalationDate` (1000 on the first call, 2000 on the second), so the
second call is neither a no-op nor a rejection. -/
theorem escalateDebt_not_idempotent_cex :
    (escalateDebt baseDebt .legal 1000).debt.escalationDate = some 1000
    ∧ (escalateDebt (escalateDebt baseDebt .legal 1000).debt .legal 2000).messagesSent = 1
    ∧ (escalateDebt (escalateDebt baseDebt .legal 1000).debt .legal 2000).debt.escalationDate
        = some 2000
    ∧ some (2000 : Int) ≠ some (1000 : Int) :=
  ⟨rfl, rfl, rfl, by decide⟩

/-- C9 (amended): status does reach `escalated` and stays there under
repeated `escalateDebt` calls, but direct `escalateDebt` is not idempotent
(it re-sends and re-stamps unconditionally); only the `scheduleEscalation`
path is a no-op on an already-escalated debt, sending nothing. -/
theorem escalate_idem_spec (d : Debt) (t t' : EscalationType) (n n' : Int) :
    (escalateDebt (escalateDebt d t n).debt t' n').debt.status = .escalated
    ∧ (d.status = .escalated → scheduleEscalationStep d n = (d, 0)) := by
  refine ⟨rfl, fun h => ?_⟩
  unfold scheduleEscalationStep
  rw [if_neg]
  simp [h]

/-- C9 witness: the already-escalated debt is skipped by
`scheduleEscalation` and repeated escalation keeps status `escalated`. -/
theorem escalate_idem_spec_witness :
    (escalateDebt (escalateDebt dEscalated .legal 1).debt .legal 2).debt.status = .escalated
    ∧ scheduleEscalationStep dEscalated 3 = (dEscalated, 0) :=
  ⟨(escalate_idem_spec dEscalated .legal .legal 1 2).1,
   (escalate_idem_spec dEscalated .legal .legal 3 0).2 (by decide)⟩

end GeminiDebtAgent
